import Mathlib

/-!
# VRChat OSC Bridge — verification of the command relay pipeline

Shallow embedding of `src/bridge.py` (Flask HTTP relay forwarding commands to
VRChat over OSC).  JSON request bodies are modelled as association lists of
`JVal`; Python floats are modelled as rationals (`Rat`); each Flask handler
becomes a pure function from the request body to the HTTP response paired with
the ordered list of side effects it performs (OSC datagrams, audit-log writes,
sleeps, URL opens, file events).  The authentication decorator
(`@auth.login_required`, outermost) and the rate limiter (`@limiter.limit`)
are modelled by the `serve` wrapper.
-/

namespace Bridge

/-- A scalar JSON value; also an element of an OSC argument list. -/
inductive JAtom where
  | astr : String → JAtom
  | anum : Rat → JAtom
  | abool : Bool → JAtom
  | anull : JAtom
deriving DecidableEq

/-- A JSON value as carried by one field of a request body: a scalar or a
flat array of scalars (no modelled request nests arrays or objects). -/
inductive JVal where
  | jstr : String → JVal
  | jnum : Rat → JVal
  | jbool : Bool → JVal
  | jlist : List JAtom → JVal
  | jnull : JVal
deriving DecidableEq

/-- A JSON object (Python dict decoded from the request body). -/
abbrev JObj := List (String × JVal)

/-- An observable side effect performed by a handler, in program order. -/
inductive Effect where
  /-- `osc.send_message(address, args)`; a scalar second argument is the
  singleton list, matching python-osc's wrapping of non-list values. -/
  | oscSend (address : String) (args : List JAtom)
  /-- A write to the audit logger (`audit_logger.info` / `.warning`). -/
  | auditLog (msg : String)
  /-- `time.sleep(d)` — the movement hold. -/
  | sleepFor (d : Rat)
  /-- `os.startfile` / `webbrowser.open` on the launch URL. -/
  | openUrl (url : String)
  /-- Creation of a file at `path` with POSIX mode `mode`. -/
  | fileCreate (path : String) (mode : Nat)
  /-- `os.unlink path`. -/
  | fileDelete (path : String)
  /-- `sd.rec`/`sd.wait`: a microphone capture of `d` seconds. -/
  | record (d : Rat)
  /-- Writing captured samples to the file at `path` (`write_wav`). -/
  | fileWrite (path : String)
deriving DecidableEq

/-- An HTTP response: status code plus JSON body (as an ordered object). -/
structure Resp where
  status : Nat
  body : JObj
deriving DecidableEq

/-- An inbound HTTP request: the bearer token presented (none when the
`Authorization` header is missing) and the decoded JSON body (none when the
body is absent or not JSON). -/
structure HttpRequest where
  token : Option String
  body : Option JObj

/-- Python's `str.startswith`, as a prefix test on the character lists
(structurally recursive, unlike `String.startsWith`, so that concrete
instances reduce inside proofs). -/
def pyStartsWith (s pat : String) : Bool :=
  pat.data.isPrefixOf s.data

/-- Python's `str.split(sep)` for a one-character separator, on character
lists: `"a/b".split('/') = ["a", "b"]`, `"".split('/') = [""]`. -/
def splitCharList (sep : Char) : List Char → List (List Char)
  | [] => [[]]
  | c :: cs =>
    match splitCharList sep cs with
    | [] => [[c]]
    | h :: t => if c = sep then [] :: (h :: t) else (c :: h) :: t

/-- `verify_token` from `src/bridge.py`: the presented token must equal the
configured `API_KEY` exactly. -/
def verify_token (apiKey token : String) : Bool :=
  token == apiKey

/-- The 401 response produced by `flask_httpauth` when `verify_token` fails
(the exact body text is generated by the library; only the status matters). -/
def resp401 : Resp := ⟨401, [("error", .jstr "Unauthorized Access")]⟩

/-- The 429 response produced by `flask_limiter` when a ceiling is reached. -/
def resp429 : Resp := ⟨429, [("error", .jstr "Too Many Requests")]⟩

/-- The catch-all 500 response (`except Exception` branches). -/
def resp500 : Resp := ⟨500, [("error", .jstr "Internal server error")]⟩

/-- A request's outcome: response, side effects in program order, and how many
rate-limit counter increments the pipeline performed for it. -/
structure Outcome where
  resp : Resp
  effects : List Effect
  rateIncrements : Nat
deriving DecidableEq

/-- The decorator pipeline around every endpoint of `src/bridge.py`, in the
source's decorator order (`@auth.login_required` outermost, then
`@limiter.limit`, then the handler): authentication is checked first; a
failed bearer check returns 401 before the limiter or the handler runs; the
limiter rejects with 429 at its ceiling and otherwise counts the request and
runs the handler.  `ceiling` is the configured limit for the endpoint's rate
class and `count` the client's current counter in the live window. -/
def serve (apiKey : String) (ceiling count : Nat)
    (handler : Option JObj → Resp × List Effect)
    (req : HttpRequest) : Outcome :=
  match req.token with
  | none => ⟨resp401, [], 0⟩
  | some t =>
    if verify_token apiKey t then
      if count < ceiling then
        let r := handler req.body
        ⟨r.1, r.2, 1⟩
      else ⟨resp429, [], 0⟩
    else ⟨resp401, [], 0⟩

/-! ## Pydantic schema parsing

Each `BaseModel` of `src/bridge.py` becomes a structure plus a parse function
from the decoded body.  Bounds (`ge`/`le`), length limits (`min_length`/
`max_length`, `max_items`), required-vs-default fields and custom
`@validator`s are modelled exactly; the error detail strings are abbreviated
renderings of pydantic's messages.  Pydantic v1's lenient coercion of other
primitive types into `str`/`float`/`bool` fields is not modelled, and no
theorem below relies on a wrong-type rejection. -/

/-- Read a required float field with `Field(..., ge := lo, le := hi)`. -/
def reqFloat (b : JObj) (fieldName : String) (lo hi : Rat) : Except String Rat :=
  match b.lookup fieldName with
  | none => .error (fieldName ++ ": field required")
  | some (.jnum q) =>
    if q < lo then .error (fieldName ++ ": value below minimum")
    else if hi < q then .error (fieldName ++ ": value above maximum")
    else .ok q
  | some _ => .error (fieldName ++ ": value is not a valid float")

/-- Read an optional float field with a default and `ge`/`le` bounds. -/
def optFloat (b : JObj) (fieldName : String) (dflt lo hi : Rat) :
    Except String Rat :=
  match b.lookup fieldName with
  | none => .ok dflt
  | some (.jnum q) =>
    if q < lo then .error (fieldName ++ ": value below minimum")
    else if hi < q then .error (fieldName ++ ": value above maximum")
    else .ok q
  | some _ => .error (fieldName ++ ": value is not a valid float")

/-- Read an optional bool field with a default. -/
def optBool (b : JObj) (fieldName : String) (dflt : Bool) :
    Except String Bool :=
  match b.lookup fieldName with
  | none => .ok dflt
  | some (.jbool v) => .ok v
  | some _ => .error (fieldName ++ ": value is not a valid boolean")

/-- `ChatboxRequest`: `message: str` (required, 1–1000 chars),
`direct: bool = True`, `notify: bool = True`. -/
structure ChatboxRequest where
  message : String
  direct : Bool
  notify : Bool
deriving DecidableEq

/-- Parse a body against the `ChatboxRequest` schema. -/
def parseChatbox (b : JObj) : Except String ChatboxRequest :=
  match b.lookup "message" with
  | none => .error "message: field required"
  | some (.jstr s) =>
    if s.length < 1 then .error "message: shorter than minimum length 1"
    else if 1000 < s.length then .error "message: longer than maximum length 1000"
    else
      match optBool b "direct" true, optBool b "notify" true with
      | .ok d, .ok n => .ok ⟨s, d, n⟩
      | .error e, _ => .error e
      | _, .error e => .error e
  | some _ => .error "message: str type expected"

/-- `MoveRequest`: `vertical`, `horizontal` required in `[-1, 1]`;
`look` defaulting to `0` in `[-1, 1]`; `duration` defaulting to `0.5` in
`[0, 10]`. -/
structure MoveRequest where
  vertical : Rat
  horizontal : Rat
  look : Rat
  duration : Rat
deriving DecidableEq

/-- The `0.5` second default of `MoveRequest.duration`, written with an
explicit reduced numerator/denominator so that it reduces inside proofs. -/
def halfSecond : Rat := ⟨1, 2, by decide, Nat.coprime_one_left 2⟩

/-- Parse a body against the `MoveRequest` schema. -/
def parseMove (b : JObj) : Except String MoveRequest :=
  match reqFloat b "vertical" (-1) 1 with
  | .error e => .error e
  | .ok v =>
    match reqFloat b "horizontal" (-1) 1 with
    | .error e => .error e
    | .ok h =>
      match optFloat b "look" 0 (-1) 1 with
      | .error e => .error e
      | .ok l =>
        match optFloat b "duration" halfSecond 0 10 with
        | .error e => .error e
        | .ok d => .ok ⟨v, h, l, d⟩

/-! ## Handlers for the OSC-backed endpoints -/

/-- The `422`-free pydantic rejection: `jsonify({"error": "Invalid request",
"details": str(e)}), 400`. -/
def respInvalid (details : String) : Resp :=
  ⟨400, [("error", .jstr "Invalid request"), ("details", .jstr details)]⟩

/-- The `/chatbox` handler body: validate, audit-log the first 50 characters
of the message, send `/chatbox/input [message, direct, notify]`, reply
`{"status": "sent", "message": message}`. -/
def chatbox_handler (mbody : Option JObj) : Resp × List Effect :=
  match mbody with
  | none => (resp500, [])           -- `ChatboxRequest(**None)` → TypeError → 500
  | some b =>
    match parseChatbox b with
    | .error e => (respInvalid e, [])
    | .ok d =>
      (⟨200, [("status", .jstr "sent"), ("message", .jstr d.message)]⟩,
       [.auditLog ("Chatbox message sent: " ++ String.mk (d.message.data.take 50) ++ "..."),
        .oscSend "/chatbox/input" [.astr d.message, .abool d.direct, .abool d.notify]])

/-- The start-of-movement sends of the `/move` handler:
`/input/Vertical`, `/input/Horizontal`, and `/input/LookHorizontal` only when
`look != 0`. -/
def moveStartSends (d : MoveRequest) : List Effect :=
  [.oscSend "/input/Vertical" [.anum d.vertical],
   .oscSend "/input/Horizontal" [.anum d.horizontal]] ++
  (if d.look ≠ 0 then [Effect.oscSend "/input/LookHorizontal" [.anum d.look]] else [])

/-- The stop-movement resets sent after the hold. -/
def moveStopSends : List Effect :=
  [.oscSend "/input/Vertical" [.anum 0],
   .oscSend "/input/Horizontal" [.anum 0],
   .oscSend "/input/LookHorizontal" [.anum 0]]

/-- The `/move` handler body.  `holdRaises` models an exception raised by
`time.sleep(data.duration)` (the hold being interrupted): the handler has no
`try/finally`, so such an exception is caught by the outer
`except Exception` and answered with 500 — the stop resets on that path are
whatever the source actually sends before the exception propagates, namely
none. -/
def move_handler (holdRaises : Bool) (mbody : Option JObj) : Resp × List Effect :=
  match mbody with
  | none => (resp500, [])
  | some b =>
    match parseMove b with
    | .error e => (respInvalid e, [])
    | .ok d =>
      if 0 < d.duration then
        if holdRaises then
          (resp500, moveStartSends d ++ [.sleepFor d.duration])
        else
          (⟨200, [("status", .jstr "moved"), ("vertical", .jnum d.vertical),
                  ("horizontal", .jnum d.horizontal)]⟩,
           moveStartSends d ++ [.sleepFor d.duration] ++ moveStopSends)
      else
        (⟨200, [("status", .jstr "moved"), ("vertical", .jnum d.vertical),
                ("horizontal", .jnum d.horizontal)]⟩,
         moveStartSends d)

/-- `RawOSCRequest.validate_address`: the address must start with one of the
three whitelisted path prefixes. -/
def validate_address (v : String) : Bool :=
  ["/chatbox/", "/input/", "/avatar/parameters/"].any (fun p => pyStartsWith v p)

/-- `RawOSCRequest`: `address: str` (1–200 chars, whitelisted by
`validate_address`), `args: list = []` with `max_items = 10`. -/
structure RawOSCRequest where
  address : String
  args : List JAtom
deriving DecidableEq

/-- Parse a body against the `RawOSCRequest` schema: the `Field` length
constraints run before the custom `@validator`, then `args` is validated. -/
def parseRaw (b : JObj) : Except String RawOSCRequest :=
  match b.lookup "address" with
  | none => .error "address: field required"
  | some (.jstr s) =>
    if s.length < 1 then .error "address: shorter than minimum length 1"
    else if 200 < s.length then .error "address: longer than maximum length 200"
    else if validate_address s then
      match b.lookup "args" with
      | none => .ok ⟨s, []⟩
      | some (.jlist l) =>
        if 10 < l.length then .error "args: more than maximum items 10"
        else .ok ⟨s, l⟩
      | some _ => .error "args: value is not a valid list"
    else .error ("OSC address " ++ s ++ " not allowed")
  | some _ => .error "address: str type expected"

/-- The 400 response of `/raw` on a `ValidationError`. -/
def respRawInvalid (details : String) : Resp :=
  ⟨400, [("error", .jstr "Invalid request - address not in whitelist"),
         ("details", .jstr details)]⟩

/-- The `/raw` handler body: validate, audit-log, send the datagram. -/
def raw_osc_handler (mbody : Option JObj) : Resp × List Effect :=
  match mbody with
  | none => (resp500, [])
  | some b =>
    match parseRaw b with
    | .error e => (respRawInvalid e, [])
    | .ok d =>
      (⟨200, [("status", .jstr "sent"), ("address", .jstr d.address),
              ("args", .jlist d.args)]⟩,
       [.auditLog ("Raw OSC message sent: " ++ d.address),
        .oscSend d.address d.args])

/-! ## World-launch endpoint -/

/-- One character of the `world_id` pattern body `[a-f0-9-]`. -/
def wrldChar (c : Char) : Bool :=
  c = '-' || ('a' ≤ c && c ≤ 'f') || ('0' ≤ c && c ≤ '9')

/-- The `world_id` pattern `^(wrld_[a-f0-9-]+)?$`: empty, or `wrld_` followed
by at least one character from `[a-f0-9-]`. -/
def wrldPattern (s : String) : Bool :=
  s.isEmpty ||
  (pyStartsWith s "wrld_" && !(s.data.drop 5).isEmpty && (s.data.drop 5).all wrldChar)

/-- `LaunchWorldRequest`: `url: str = ''` (≤500 chars), `world_id: str = ''`
matching `wrldPattern`. -/
structure LaunchWorldRequest where
  url : String
  world_id : String
deriving DecidableEq

/-- Parse a body against the `LaunchWorldRequest` schema.  Pydantic v1
validates fields in declaration order (`url` before `world_id`), and the
`validate_not_empty` validator runs on `url` with `values` holding only the
fields validated so far — so `values.get('world_id')` is always `None` at
that point and an empty `url` is rejected even when a `world_id` is
supplied. -/
def parseLaunch (b : JObj) : Except String LaunchWorldRequest :=
  let mu : Except String String :=
    match b.lookup "url" with
    | none => .ok ""
    | some (.jstr s) =>
      if 500 < s.length then .error "url: longer than maximum length 500"
      else .ok s
    | some _ => .error "url: str type expected"
  match mu with
  | .error e => .error e
  | .ok u =>
    if u.isEmpty then
      .error "Either url or world_id must be provided"
    else
      match b.lookup "world_id" with
      | none => .ok ⟨u, ""⟩
      | some (.jstr s) =>
        if wrldPattern s then .ok ⟨u, s⟩
        else .error "world_id: string does not match pattern"
      | some _ => .error "world_id: str type expected"

/-- The scan `for part in url.split('/'): if part.startswith('wrld_') ...`
of the `/launch` handler. -/
def find_wrld_part (url : String) : Option String :=
  ((splitCharList '/' url.data).map String.mk).find?
    (fun part => pyStartsWith part "wrld_")

/-- The `/launch` handler body, mirroring the source's branch structure:
when `url` is non-empty, `launch_url = url`, the embedded world id is
extracted into the (then unused) `world_id` local, and — because
`if world_id and not url:` is false — the *original* URL is audited and
opened; when `url` is empty and `world_id` non-empty, the `vrchat://` launch
URL is built; with neither, 400. -/
def launch_world_handler (mbody : Option JObj) : Resp × List Effect :=
  match mbody with
  | none => (resp500, [])
  | some b =>
    match parseLaunch b with
    | .error e => (respInvalid e, [])
    | .ok d =>
      if !d.url.isEmpty then
        (⟨200, [("status", .jstr "launched"), ("url", .jstr d.url)]⟩,
         [.auditLog ("World launch requested: " ++ d.url), .openUrl d.url])
      else if !d.world_id.isEmpty then
        let lu := "vrchat://launch?ref=vrchat.com&id=" ++ d.world_id
        (⟨200, [("status", .jstr "launched"), ("url", .jstr lu)]⟩,
         [.auditLog ("World launch requested: " ++ lu), .openUrl lu])
      else
        (⟨400, [("error", .jstr "Provide either url or world_id")]⟩, [])

/-- The world id the handler extracts from a web URL before launching
(`world_id = part` inside `if url.startswith('https://vrchat.com/home/world/')`),
falling back to the validated `world_id` field. -/
def effective_world_id (d : LaunchWorldRequest) : String :=
  if !d.url.isEmpty && pyStartsWith d.url "https://vrchat.com/home/world/" then
    (find_wrld_part d.url).getD d.world_id
  else d.world_id

/-! ## Capture endpoints -/

/-- The duration computation of `/listen`:
`min(data.get('duration', 5), 30)`.  `none` models a non-numeric value, on
which Python's `min` raises `TypeError` (caught by the 500 catch-all). -/
def listen_duration (mbody : Option JObj) : Option Rat :=
  match (mbody.getD []).lookup "duration" with
  | none => some (min 5 30)
  | some (.jnum q) => some (min q 30)
  | some _ => none

/-- The identical duration computation of `/transcribe`. -/
def transcribe_duration (mbody : Option JObj) : Option Rat :=
  match (mbody.getD []).lookup "duration" with
  | none => some (min 5 30)
  | some (.jnum q) => some (min q 30)
  | some _ => none

/-- How far the `/transcribe` handler's `try` body gets before an exception,
covering its exit paths: `whisperMissing` — `import whisper` raises
`ImportError` (capture/model unavailability, before any file is touched);
`recordRaises` — `sd.rec`/`sd.wait` raises after the temp file was created;
`modelRaises` — `whisper.load_model`/`transcribe` raises after recording;
`allOk` — the happy path. -/
inductive TransRun where
  | whisperMissing
  | recordRaises
  | modelRaises
  | allOk
deriving DecidableEq

/-- The `/transcribe` handler body as a trace over an abstract collaborator
outcome.  `tmpName` is the unique path handed out by
`tempfile.NamedTemporaryFile` (collision-free per that library's contract);
`mkstemp` creates it owner-only and the explicit `os.chmod(temp_path, 0o600)`
sets mode `0o600 = 384`.  `text`/`lang` are the model's output on the happy
path.  The `finally` block unlinks `temp_path` whenever it was assigned and
the file exists, on every exit path. -/
def transcribe_handler (audioAvailable : Bool) (outcome : TransRun)
    (tmpName text lang : String) (mbody : Option JObj) : Resp × List Effect :=
  if !audioAvailable then
    (⟨500, [("error", .jstr "Audio libs not installed")]⟩, [])
  else
    match outcome, transcribe_duration mbody with
    | .whisperMissing, _ =>
      -- ImportError caught before temp_path is assigned; finally sees None.
      (⟨500, [("error", .jstr "Whisper not installed. Run: pip install openai-whisper")]⟩, [])
    | _, none =>
      -- TypeError from min() on a non-numeric duration, before the temp file.
      (⟨500, [("error", .jstr "Transcription failed")]⟩, [])
    | .recordRaises, some _ =>
      (⟨500, [("error", .jstr "Transcription failed")]⟩,
       [.auditLog "Transcription requested", .fileCreate tmpName 384,
        .fileDelete tmpName])
    | .modelRaises, some d =>
      (⟨500, [("error", .jstr "Transcription failed")]⟩,
       [.auditLog "Transcription requested", .fileCreate tmpName 384,
        .record d, .fileWrite tmpName, .fileDelete tmpName])
    | .allOk, some d =>
      (⟨200, [("status", .jstr "ok"), ("text", .jstr text),
              ("language", .jstr lang)]⟩,
       [.auditLog "Transcription requested", .fileCreate tmpName 384,
        .record d, .fileWrite tmpName, .fileDelete tmpName])

/-- The create/delete events concerning path `p`, in trace order
(`true` = created, `false` = deleted). -/
def fileEventsFor (p : String) : List Effect → List Bool
  | [] => []
  | .fileCreate q _ :: es => (if q = p then [true] else []) ++ fileEventsFor p es
  | .fileDelete q :: es => (if q = p then [false] else []) ++ fileEventsFor p es
  | _ :: es => fileEventsFor p es

/-- Whether a file at `p` that did not pre-exist exists once the trace `es`
has run: the last create/delete event for `p` wins. -/
def fileExistsAfter (es : List Effect) (p : String) : Bool :=
  ((fileEventsFor p es).getLast?).getD false

/-! ## Concurrency model for same-device captures

`/listen` and `/transcribe` both call `sd.rec` … `sd.wait()` on the default
input device with no lock, semaphore, or busy check anywhere in
`src/bridge.py`; Flask serves requests on concurrent worker threads.  Each
request's microphone usage is the event trace acquire–release–respond, and
the process-level behaviour of two concurrent requests is any interleaving
of their traces. -/

/-- One request's observable capture events, tagged with a request id. -/
inductive CapEvent where
  | acquire (reqId : Nat)
  | release (reqId : Nat)
  | respond (reqId : Nat)
deriving DecidableEq

/-- The microphone trace of one `/listen` (or `/transcribe`) request in the
source: `sd.rec` starts the capture, `sd.wait()` ends it, the HTTP response
is returned; no synchronization event exists in the handler. -/
def capture_request_trace (reqId : Nat) : List CapEvent :=
  [.acquire reqId, .release reqId, .respond reqId]

/-- `Interleaves xs ys zs`: `zs` is an order-preserving merge of `xs` and
`ys` — the possible process-level schedules of two concurrent requests. -/
inductive Interleaves : List CapEvent → List CapEvent → List CapEvent → Prop where
  | nil : Interleaves [] [] []
  | left {x xs ys zs} : Interleaves xs ys zs → Interleaves (x :: xs) ys (x :: zs)
  | right {y xs ys zs} : Interleaves xs ys zs → Interleaves xs (y :: ys) (y :: zs)

/-- Running count of simultaneously held capture sessions along a schedule,
returning the maximum reached. -/
def maxHeldAux : List CapEvent → Nat → Nat → Nat
  | [], _, m => m
  | .acquire _ :: es, c, m => maxHeldAux es (c + 1) (max m (c + 1))
  | .release _ :: es, c, m => maxHeldAux es (c - 1) m
  | .respond _ :: es, c, m => maxHeldAux es c m

/-- The maximum number of capture sessions simultaneously held on the device
during a schedule. -/
def maxHeld (t : List CapEvent) : Nat := maxHeldAux t 0 0

/-- A concrete accepted `/move` body: vertical `1`, horizontal `-1`,
duration `1` second. -/
def moveBody1 : JObj :=
  [("vertical", .jnum 1), ("horizontal", .jnum (-1)), ("duration", .jnum 1)]

/-- A schedule of two concurrent capture requests in which request 2 acquires
the device while request 1 still holds it. -/
def overlapSchedule : List CapEvent :=
  [.acquire 1, .acquire 2, .release 1, .respond 1, .release 2, .respond 2]

/-! ## Claim theorems -/

/-- C1: a request whose bearer credential is missing or fails `verify_token`
is answered 401 by the authentication decorator before the rate limiter or
handler runs: no OSC send, no audit write, no capture, and no rate-limit
counter increment. -/
theorem C1_unauthenticated_rejects_with_zero_side_effects
    (apiKey : String) (req : HttpRequest) (ceiling count : Nat)
    (handler : Option JObj → Resp × List Effect)
    (hbad : req.token = none ∨
      ∃ t, req.token = some t ∧ verify_token apiKey t = false) :
    serve apiKey ceiling count handler req = ⟨resp401, [], 0⟩ := by
  rcases hbad with h | ⟨t, ht, hv⟩
  · simp [serve, h]
  · simp [serve, ht, hv]

/-- Witness for C1: a concrete request with a wrong token against the
`/chatbox` endpoint. -/
theorem C1_witness :
    serve "s3cret" 30 0 chatbox_handler
      ⟨some "wrong", some [("message", JVal.jstr "hi")]⟩ = ⟨resp401, [], 0⟩ :=
  C1_unauthenticated_rejects_with_zero_side_effects "s3cret" _ 30 0
    chatbox_handler (Or.inr ⟨"wrong", rfl, rfl⟩)

/-- C9: `POST /chatbox {"message": "hi", "direct": true, "notify": true}`
with a valid credential sends exactly one OSC message, to `/chatbox/input`
with ordered arguments `["hi", true, true]`, and answers
`{"status": "sent", "message": "hi"}`; the only other side effect is the
audit-log write. -/
theorem C9_chatbox_scenario (apiKey : String) :
    serve apiKey 30 0 chatbox_handler
      ⟨some apiKey,
       some [("message", .jstr "hi"), ("direct", .jbool true), ("notify", .jbool true)]⟩ =
    ⟨⟨200, [("status", .jstr "sent"), ("message", .jstr "hi")]⟩,
     [.auditLog "Chatbox message sent: hi...",
      .oscSend "/chatbox/input" [.astr "hi", .abool true, .abool true]], 1⟩ ∧
    ((serve apiKey 30 0 chatbox_handler
      ⟨some apiKey,
       some [("message", .jstr "hi"), ("direct", .jbool true), ("notify", .jbool true)]⟩).effects.countP
        (fun e => match e with | .oscSend _ _ => true | _ => false)) = 1 := by
  constructor
  · simp [serve, verify_token]
    exact ⟨rfl, rfl⟩
  · simp [serve, verify_token]
    rfl

/-- C7: on both `/listen` and `/transcribe`, a numeric requested duration is
clamped to `min(duration, 30)`, hence never exceeds 30 seconds, and an absent
duration defaults to 5 seconds. -/
theorem C7_duration_clamped_to_30_default_5 :
    (∀ (q : Rat) (rest : JObj),
      listen_duration (some (("duration", .jnum q) :: rest)) = some (min q 30) ∧
      transcribe_duration (some (("duration", .jnum q) :: rest)) = some (min q 30) ∧
      min q 30 ≤ 30) ∧
    listen_duration none = some 5 ∧
    listen_duration (some []) = some 5 ∧
    transcribe_duration none = some 5 ∧
    transcribe_duration (some []) = some 5 := by
  refine ⟨fun q rest => ⟨?_, ?_, min_le_right q 30⟩, rfl, rfl, rfl, rfl⟩
  · simp [listen_duration, List.lookup]
  · simp [transcribe_duration, List.lookup]

/-- C3 (code behaviour at the claim's failing input): for
`{"url": "https://vrchat.com/home/world/wrld_1234"}` the handler *does*
extract the embedded world id `wrld_1234`, but the launch side effect opens
the original web URL — `launch_url` is never rebuilt from the extracted id
because `if world_id and not url:` is false whenever `url` was supplied —
and the opened target is not `vrchat://launch?ref=vrchat.com&id=wrld_1234`. -/
theorem C3_web_url_not_converted :
    effective_world_id ⟨"https://vrchat.com/home/world/wrld_1234", ""⟩ = "wrld_1234" ∧
    launch_world_handler
      (some [("url", JVal.jstr "https://vrchat.com/home/world/wrld_1234")]) =
      (⟨200, [("status", .jstr "launched"),
              ("url", .jstr "https://vrchat.com/home/world/wrld_1234")]⟩,
       [.auditLog "World launch requested: https://vrchat.com/home/world/wrld_1234",
        .openUrl "https://vrchat.com/home/world/wrld_1234"]) ∧
    (Effect.openUrl "vrchat://launch?ref=vrchat.com&id=wrld_1234") ∉
      (launch_world_handler
        (some [("url", JVal.jstr "https://vrchat.com/home/world/wrld_1234")])).2 := by
  refine ⟨rfl, rfl, ?_⟩
  intro hmem
  simp only [launch_world_handler, parseLaunch] at hmem
  revert hmem
  decide

/-- C2: `validate_address` accepts an address iff it begins with one of the
three whitelisted prefixes; any raw request whose address fails the whitelist
is answered 400 with no OSC send and no audit write, whatever the argument
list; and any body accepted by the `RawOSCRequest` schema carries at most 10
arguments. -/
theorem C2_raw_address_whitelist :
    (∀ a : String,
      validate_address a = true ↔
        ("/chatbox/".data <+: a.data ∨ "/input/".data <+: a.data ∨
         "/avatar/parameters/".data <+: a.data)) ∧
    (∀ (a : String) (args : List JAtom), validate_address a = false →
      ∃ e, raw_osc_handler (some [("address", JVal.jstr a), ("args", JVal.jlist args)]) =
        (respRawInvalid e, [])) ∧
    (∀ (b : JObj) (d : RawOSCRequest), parseRaw b = .ok d → d.args.length ≤ 10) := by
  refine ⟨?_, ?_, ?_⟩
  · intro a
    simp [validate_address, pyStartsWith, List.isPrefixOf_iff_prefix]
  · intro a args h
    by_cases h1 : a.length < 1
    · exact ⟨"address: shorter than minimum length 1",
        by simp [raw_osc_handler, parseRaw, List.lookup, h1]⟩
    · by_cases h2 : 200 < a.length
      · exact ⟨"address: longer than maximum length 200",
          by simp [raw_osc_handler, parseRaw, List.lookup, h1, h2]⟩
      · exact ⟨"OSC address " ++ a ++ " not allowed",
          by simp [raw_osc_handler, parseRaw, List.lookup, h1, h2, h]⟩
  · intro b d h
    unfold parseRaw at h
    split at h
    · exact Except.noConfusion h
    · split at h
      · exact Except.noConfusion h
      · split at h
        · exact Except.noConfusion h
        · split at h
          · split at h
            · cases h
              exact Nat.zero_le 10
            · split at h
              · exact Except.noConfusion h
              · cases h
                rename_i hlen
                exact Nat.not_lt.mp hlen
            · exact Except.noConfusion h
          · exact Except.noConfusion h
    · exact Except.noConfusion h

/-- Witness for C2: the address `/status` is outside the whitelist; with a
well-formed empty argument list the request is rejected with no effects. -/
theorem C2_witness :
    ∃ e, raw_osc_handler (some [("address", JVal.jstr "/status"), ("args", JVal.jlist [])]) =
      (respRawInvalid e, []) :=
  C2_raw_address_whitelist.2.1 "/status" [] rfl

/-- C4 counterexample: the accepted request `moveBody1` has duration `1 > 0`,
yet on the execution where the hold raises (the `/move` handler has no
`try/finally`), the handler answers 500 and *none* of the three stop resets
is ever sent — the claim's "on every exit path, including when the hold is
interrupted by an exception" is false. -/
theorem C4_counterexample_hold_exception_skips_stop :
    parseMove moveBody1 = .ok ⟨1, -1, 0, 1⟩ ∧
    (move_handler true (some moveBody1)).1 = resp500 ∧
    Effect.oscSend "/input/Vertical" [.anum 0] ∉ (move_handler true (some moveBody1)).2 ∧
    Effect.oscSend "/input/Horizontal" [.anum 0] ∉ (move_handler true (some moveBody1)).2 ∧
    Effect.oscSend "/input/LookHorizontal" [.anum 0] ∉ (move_handler true (some moveBody1)).2 := by
  refine ⟨rfl, rfl, by decide, by decide, by decide⟩

/-- C4 amended: for every accepted move request with duration `> 0`, the stop
resets are sent after the hold *when the hold completes normally*; when the
hold raises, the handler returns without sending them. -/
theorem C4_amended_stop_sent_unless_hold_raises
    (b : JObj) (d : MoveRequest) (hp : parseMove b = .ok d) (hd : 0 < d.duration) :
    (move_handler false (some b)).2 =
      moveStartSends d ++ [.sleepFor d.duration] ++ moveStopSends ∧
    (move_handler true (some b)).2 = moveStartSends d ++ [.sleepFor d.duration] := by
  constructor <;> simp [move_handler, hp, hd]

/-- Witness for C4: the amended statement at the concrete body `moveBody1`. -/
theorem C4_witness :
    (move_handler false (some moveBody1)).2 =
      moveStartSends ⟨1, -1, 0, 1⟩ ++ [.sleepFor 1] ++ moveStopSends :=
  (C4_amended_stop_sent_unless_hold_raises moveBody1 ⟨1, -1, 0, 1⟩ rfl (by norm_num)).1

/-- C6: a move with duration `0` is accepted, issues the start sends only —
no hold, no stop resets; duration `10` passes validation and is served 200;
any duration above `10`, in particular `10.0001`, is rejected by the schema
with a duration bound error. -/
theorem C6_move_duration_boundaries (holdRaises : Bool) :
    move_handler holdRaises
        (some [("vertical", .jnum 1), ("horizontal", .jnum 0), ("duration", .jnum 0)]) =
      (⟨200, [("status", .jstr "moved"), ("vertical", .jnum 1), ("horizontal", .jnum 0)]⟩,
       [.oscSend "/input/Vertical" [.anum 1], .oscSend "/input/Horizontal" [.anum 0]]) ∧
    parseMove [("vertical", .jnum 1), ("horizontal", .jnum 0), ("duration", .jnum 10)] =
      .ok ⟨1, 0, 0, 10⟩ ∧
    (move_handler false
      (some [("vertical", .jnum 1), ("horizontal", .jnum 0), ("duration", .jnum 10)])).1.status = 200 ∧
    (∀ q : Rat, 10 < q →
      parseMove [("vertical", .jnum 1), ("horizontal", .jnum 0), ("duration", .jnum q)] =
        .error "duration: value above maximum") ∧
    (10 : Rat) < 10.0001 := by
  refine ⟨rfl, rfl, rfl, ?_, by norm_num⟩
  intro q hq
  have h0 : ¬ q < 0 := by linarith
  have e1 : List.lookup "vertical"
      [("vertical", JVal.jnum 1), ("horizontal", JVal.jnum 0), ("duration", JVal.jnum q)] =
      some (JVal.jnum 1) := rfl
  have e2 : List.lookup "horizontal"
      [("vertical", JVal.jnum 1), ("horizontal", JVal.jnum 0), ("duration", JVal.jnum q)] =
      some (JVal.jnum 0) := rfl
  have e3 : List.lookup "look"
      [("vertical", JVal.jnum 1), ("horizontal", JVal.jnum 0), ("duration", JVal.jnum q)] =
      none := rfl
  have e4 : List.lookup "duration"
      [("vertical", JVal.jnum 1), ("horizontal", JVal.jnum 0), ("duration", JVal.jnum q)] =
      some (JVal.jnum q) := rfl
  norm_num [parseMove, reqFloat, optFloat, e1, e2, e3, e4, h0, hq]
  rfl

/-- Witness for C6: the duration-bound rejection applied at the claim's
concrete boundary value `10.0001`. -/
theorem C6_witness :
    parseMove [("vertical", JVal.jnum 1), ("horizontal", JVal.jnum 0),
               ("duration", JVal.jnum 10.0001)] =
      .error "duration: value above maximum" :=
  (C6_move_duration_boundaries false).2.2.2.1 10.0001
    (C6_move_duration_boundaries false).2.2.2.2

/-- C8: on every exit path of `/transcribe` — capture library missing,
whisper missing, recording failure, model failure, invalid duration, or
success — the temporary audio artifact no longer exists when the response is
returned, and whenever it is created it is created owner-only
(mode `0o600 = 384`); its name is the fresh one handed out by
`tempfile.NamedTemporaryFile`. -/
theorem C8_transcribe_temp_cleanup_and_permissions
    (audioAvailable : Bool) (outcome : TransRun) (tmpName text lang : String)
    (mbody : Option JObj) :
    fileExistsAfter
      (transcribe_handler audioAvailable outcome tmpName text lang mbody).2 tmpName = false ∧
    ∀ m, Effect.fileCreate tmpName m ∈
        (transcribe_handler audioAvailable outcome tmpName text lang mbody).2 → m = 384 := by
  cases audioAvailable with
  | false => exact ⟨rfl, by intro m hm; cases hm⟩
  | true =>
    cases outcome <;>
      rcases hdur : transcribe_duration mbody with _ | d <;>
        simp [transcribe_handler, hdur, fileExistsAfter, fileEventsFor]

/-- Witness for C8: the model-failure path with a concrete temp file: the
file is gone afterwards, and the one creation event in the trace used mode
`0o600`. -/
theorem C8_witness :
    fileExistsAfter
      (transcribe_handler true TransRun.modelRaises "/tmp/rec.wav" "hello" "en" (some [])).2
      "/tmp/rec.wav" = false ∧ (384 : Nat) = 384 :=
  ⟨(C8_transcribe_temp_cleanup_and_permissions true TransRun.modelRaises
      "/tmp/rec.wav" "hello" "en" (some [])).1,
   (C8_transcribe_temp_cleanup_and_permissions true TransRun.modelRaises
      "/tmp/rec.wav" "hello" "en" (some [])).2 384
     (by simp [transcribe_handler, transcribe_duration])⟩

/-- C10 counterexample: the claim that two concurrent same-device capture
requests never overlap (each handler being the lock-free trace
acquire–release–respond) is false: `overlapSchedule` is a legal interleaving
of two request traces in which both sessions are held at once. -/
theorem C10_counterexample_captures_can_overlap :
    ¬ (∀ t, Interleaves (capture_request_trace 1) (capture_request_trace 2) t →
        maxHeld t ≤ 1) := by
  intro hclaim
  have hi : Interleaves (capture_request_trace 1) (capture_request_trace 2) overlapSchedule :=
    .left (.right (.left (.left (.right (.right .nil)))))
  have hle := hclaim overlapSchedule hi
  have hm : maxHeld overlapSchedule = 2 := rfl
  rw [hm] at hle
  omega

/-- C10 amended: the capture handlers use no serialization at all — there is
an interleaving of two concurrent capture requests on the same device in
which the two sessions overlap (two simultaneous holders) while both
requests complete with a normal response; the second request neither blocks
nor receives a busy rejection. -/
theorem C10_amended_overlap_possible :
    ∃ t, Interleaves (capture_request_trace 1) (capture_request_trace 2) t ∧
      maxHeld t = 2 ∧ CapEvent.respond 1 ∈ t ∧ CapEvent.respond 2 ∈ t := by
  refine ⟨overlapSchedule, .left (.right (.left (.left (.right (.right .nil))))), rfl, ?_, ?_⟩ <;>
    simp [overlapSchedule]

end Bridge

